import Mathlib

/-!
Verification development for the sleigh-sys bridge (src/bridge/bridge.cc,
src/bridge/bridge.hh): a shallow embedding of the boundary layer between a
host (Rust) runtime and the SLEIGH translation engine, together with proofs
of the boundary contracts.

The engine itself (SLEIGH decode, the XML document parser, the opcode
enumeration, VarnodeData accessors) lives in decompiler sources that are not
part of the bridge; those parts are modelled from the specification and are
marked as such in their doc comments.  The bridge functions themselves are
translated from the source.
-/

namespace SleighSys

/-- An address value: a space identifier together with an offset, as built by
the bridge via the engine constructor taking a space and a 64-bit offset. -/
structure Address where
  space : Nat
  offset : Nat
deriving Repr, DecidableEq

/-- Default-constructed address, as returned by the bridge factory
newAddress (engine default constructor: null space, zero offset; the null
space is modelled as space identifier 0). -/
def newAddress : Address := ⟨0, 0⟩

/-- A varnode descriptor: the fixed record of a space identifier, an offset
and a size describing one operand storage location. -/
structure VarnodeData where
  space : Nat
  offset : Nat
  size : Nat
deriving Repr, DecidableEq

/-- Modelled from the spec: the engine-side accessor VarnodeData::getAddr is
in the decompiler sources, not under the bridge; the spec describes the
descriptor as encoding a space identifier and an offset, and the returned
address carries exactly those two fields. -/
def VarnodeData.getAddr (d : VarnodeData) : Address := ⟨d.space, d.offset⟩

/-- Bridge accessor getVarnodeSize: returns the size field of the
descriptor verbatim. -/
def getVarnodeSize (d : VarnodeData) : Nat := d.size

/-- Bridge accessor getVarnodeDataAddress: heap-allocates a copy of the
address returned by the engine accessor; in the embedding, the address
value itself. -/
def getVarnodeDataAddress (d : VarnodeData) : Address := d.getAddr

/-- Modelled from the spec: the engine's opcode enumeration is declared in
the decompiler sources, not under the bridge; the bridge only ever casts
its underlying numeric value, so it is modelled as that value. -/
structure OpCode where
  val : Nat
deriving Repr, DecidableEq

/-- The bridge's cast of an opcode enumeration value to a 32-bit numeric
tag, as performed in RustPCodeEmitProxy::dump. -/
def opcodeToUInt32 (o : OpCode) : Nat := o.val % 2 ^ 32

/-- A decode fault raised inside the engine during one translate or
disassemble call. -/
inductive Fault where
  | badEncoding
  | unsupportedConstruct
  | byteSupplierFailure
deriving Repr, DecidableEq

/-- The host-side byte-supplier callback object (RustLoadImage): its
operations are implemented on the host side, so they are abstract
functions here.  load_fill answers a request of a byte count at an address
(the buffer pointer is modelled by its numeric value), either producing
the bytes written or failing through the host's own fault channel. -/
structure RustLoadImage where
  load_fill : Nat → Nat → Address → Except Fault (List Nat)
  adjust_vma : Int → Unit

/-- The load-image proxy: adapts the host byte-supplier to the engine's
pull-based memory interface, holding only a non-owning reference. -/
structure RustLoadImageProxy where
  inner : RustLoadImage

/-- RustLoadImageProxy::loadFill: forwards the fill request verbatim to
the host supplier. -/
def RustLoadImageProxy.loadFill (p : RustLoadImageProxy) (ptr size : Nat)
    (address : Address) : Except Fault (List Nat) :=
  p.inner.load_fill ptr size address

/-- RustLoadImageProxy::adjustVma: forwards the base-adjustment delta to
the host supplier; no return value and no failure path. -/
def RustLoadImageProxy.adjustVma (p : RustLoadImageProxy) (adjust : Int) : Unit :=
  p.inner.adjust_vma adjust

/-- RustLoadImageProxy::getArchType: returns the fixed string "plain"
regardless of any state. -/
def RustLoadImageProxy.getArchType (_ : RustLoadImageProxy) : String := "plain"

/-- One micro-operation as emitted by the engine into the pcode-emit
interface: address, opcode enumeration value, optional output descriptor,
input descriptors and input count. -/
structure EngineEmission where
  addr : Address
  opc : OpCode
  outvar : Option VarnodeData
  vars : List VarnodeData
  isize : Int
deriving Repr, DecidableEq

/-- The record a host pcode sink receives for one micro-operation: the
opcode has been converted to a numeric tag, everything else verbatim. -/
structure HostPcodeRecord where
  addr : Address
  opcTag : Nat
  outvar : Option VarnodeData
  vars : List VarnodeData
  isize : Int
deriving Repr, DecidableEq

/-- The host-side pcode sink callback object (RustPCodeEmit); its dump
operation is host-implemented, hence an abstract function returning the
host's observation of the call. -/
structure RustPCodeEmit (α : Type) where
  dump : Address → Nat → Option VarnodeData → List VarnodeData → Int → α

/-- The pcode-emit proxy: holds a non-owning reference to the host sink. -/
structure RustPCodeEmitProxy (α : Type) where
  inner : RustPCodeEmit α

/-- RustPCodeEmitProxy::dump: forwards address, output descriptor, input
descriptors and input count verbatim, converting only the opcode
enumeration value to a numeric tag. -/
def RustPCodeEmitProxy.dump (p : RustPCodeEmitProxy α) (addr : Address)
    (opc : OpCode) (outvar : Option VarnodeData) (vars : List VarnodeData)
    (isize : Int) : α :=
  p.inner.dump addr (opcodeToUInt32 opc) outvar vars isize

/-- The canonical recording sink: observes exactly the record it is
handed.  Instantiating the proxy with it exhibits what crosses the
boundary. -/
def recordSink : RustPCodeEmit HostPcodeRecord :=
  ⟨fun a t o v n => ⟨a, t, o, v, n⟩⟩

/-- The pcode-emit proxy wrapping the recording sink; used to express the
stream of records delivered to the host during one translate call. -/
def recordProxy : RustPCodeEmitProxy HostPcodeRecord := ⟨recordSink⟩

/-- One textual emission of the assembly-emit interface: address, mnemonic
and operand body. -/
structure AsmEmission where
  addr : Address
  mnem : String
  body : String
deriving Repr, DecidableEq

/-- The host-side assembly sink callback object (RustAssemblyEmit). -/
structure RustAssemblyEmit (α : Type) where
  dump : Address → String → String → α

/-- The assembly-emit proxy: holds a non-owning reference to the host
sink. -/
structure RustAssemblyEmitProxy (α : Type) where
  inner : RustAssemblyEmit α

/-- RustAssemblyEmitProxy::dump: forwards address, mnemonic and operand
body verbatim. -/
def RustAssemblyEmitProxy.dump (p : RustAssemblyEmitProxy α) (addr : Address)
    (mnem body : String) : α :=
  p.inner.dump addr mnem body

/-- The canonical recording assembly sink. -/
def asmRecordSink : RustAssemblyEmit AsmEmission := ⟨fun a m b => ⟨a, m, b⟩⟩

/-- The assembly-emit proxy wrapping the recording sink. -/
def asmRecordProxy : RustAssemblyEmitProxy AsmEmission := ⟨asmRecordSink⟩

/-- An element of the parsed configuration tree.  Modelled from the spec:
the XML element type is in the decompiler sources, not under the bridge;
only a root element with a tag name and content is needed here. -/
structure Element where
  name : String
  content : String
deriving Repr, DecidableEq

/-- A parse failure of the external document parser. -/
inductive ParseError where
  | malformedDocument
deriving Repr, DecidableEq

/-- Document storage: owns registered root tags for the engine
initializer to retrieve; a fresh storage has none.  Modelled from the
spec where the decompiler class is not under the bridge: the bridge only
constructs it empty and registers one root tag. -/
structure DocumentStorage where
  tags : List Element
deriving Repr, DecidableEq

/-- DocumentStorage::registerTag: registers an element into the storage's
tag registry. -/
def DocumentStorage.registerTag (st : DocumentStorage) (e : Element) :
    DocumentStorage :=
  ⟨st.tags ++ [e]⟩

/-- Bridge factory newDocumentStorage: constructs a fresh storage, parses
the text, extracts the parsed document's root element and registers it,
then returns the storage.  A parse failure propagates to the caller
unhandled.  The external parser (DocumentStorage::parseDocument, in the
decompiler sources, not under the bridge) is a parameter: the bridge
forwards to it and interprets its result. -/
def newDocumentStorage (parseDocument : String → Except ParseError Element)
    (s : String) : Except ParseError DocumentStorage :=
  match parseDocument s with
  | .error e => .error e
  | .ok root => .ok (DocumentStorage.registerTag ⟨[]⟩ root)

/-- A fault during engine-handle construction. -/
inductive InitFault where
  | malformedConfig
deriving Repr, DecidableEq

/-- The engine's internal tables, built once from the configuration at
construction and immutable thereafter. -/
structure EngineTables where
  root : Element
deriving Repr, DecidableEq

/-- Modelled from the spec: Sleigh::initialize (decompiler sources, not
under the bridge) retrieves the registered root tag from the storage and
builds the internal tables from it; a configuration document missing the
required tag content makes construction fail before any usable state
exists. -/
def initializeFromSpec (st : DocumentStorage) : Except InitFault EngineTables :=
  match st.tags with
  | [] => .error .malformedConfig
  | r :: _ => .ok ⟨r⟩

/-- The context database: processor context-register values, mutated only
through the accessor the host obtains from the handle.  Modelled from the
spec where ContextInternal is not under the bridge. -/
structure ContextDB where
  regs : List (String × Nat)
deriving Repr, DecidableEq

/-- Fresh context database, as built by the bridge factory newContext and
by the embedded member of a new engine handle. -/
def newContext : ContextDB := ⟨[]⟩

/-- The engine handle.  It owns the load-image proxy, the parsed
configuration and the embedded context database, and carries the tables
built at initialization.  The SLEIGH decode algorithms are not under the
bridge; modelled from the spec, they are functions of the current context
database, the byte supplier and the address only, carried as fields, and
the engine's residual instruction-level scratch state (internal decode
caches) is a separate field that the decode result does not consult. -/
structure Decompiler where
  loadImage : RustLoadImageProxy
  specDoc : DocumentStorage
  context : ContextDB
  tables : EngineTables
  defaultCodeSpace : Nat
  scratch : List Nat
  decodePcode : ContextDB → RustLoadImageProxy → Address →
    List EngineEmission × Except Fault Int
  decodeAsm : ContextDB → RustLoadImageProxy → Address →
    List AsmEmission × Except Fault Int

/-- Bridge factory newDecompiler: wraps the host byte-supplier in a
load-image proxy, takes ownership of the parsed configuration, embeds a
fresh context database and runs the one-time initialization; a malformed
configuration fails construction and no handle is returned.  The decode
algorithms and the default code space come from the engine component and
are parameters here. -/
def newDecompiler
    (decodeP : ContextDB → RustLoadImageProxy → Address →
      List EngineEmission × Except Fault Int)
    (decodeA : ContextDB → RustLoadImageProxy → Address →
      List AsmEmission × Except Fault Int)
    (defaultSpace : Nat) (loadImage : RustLoadImage)
    (spec : DocumentStorage) : Except InitFault Decompiler :=
  match initializeFromSpec spec with
  | .error e => .error e
  | .ok t =>
    .ok { loadImage := ⟨loadImage⟩
          specDoc := spec
          context := newContext
          tables := t
          defaultCodeSpace := defaultSpace
          scratch := []
          decodePcode := decodeP
          decodeAsm := decodeA }

/-- Decompiler::getContext: the embedded mutable context database. -/
def Decompiler.getContext (d : Decompiler) : ContextDB := d.context

/-- Decompiler::translate: builds the address from the handle's default
code space and the 64-bit offset, constructs a fresh pcode-emit proxy
around the sink, and decodes one instruction there; any fault is caught
at the boundary and converted to a return of 0 while the emissions
already forwarded stand.  The first component is the pair of the record
stream the host sink received and the returned instruction length; the
second is the handle afterwards (the decode may touch only the residual
scratch state, here recording the visited offset). -/
def Decompiler.translate (d : Decompiler) (addr : Nat) :
    (List HostPcodeRecord × Int) × Decompiler :=
  let address : Address := ⟨d.defaultCodeSpace, addr⟩
  let r := d.decodePcode d.context d.loadImage address
  let forwarded := r.1.map (fun e =>
    recordProxy.dump e.addr e.opc e.outvar e.vars e.isize)
  let n : Int :=
    match r.2 with
    | .ok n => n
    | .error _ => 0
  ((forwarded, n), { d with scratch := d.scratch ++ [addr] })

/-- Decompiler::disassemble: same address construction and return
contract as translate, with a fresh assembly-emit proxy forwarding the
engine's textual emission stream to the sink. -/
def Decompiler.disassemble (d : Decompiler) (addr : Nat) :
    (List AsmEmission × Int) × Decompiler :=
  let address : Address := ⟨d.defaultCodeSpace, addr⟩
  let r := d.decodeAsm d.context d.loadImage address
  let forwarded := r.1.map (fun e => asmRecordProxy.dump e.addr e.mnem e.body)
  let n : Int :=
    match r.2 with
    | .ok n => n
    | .error _ => 0
  ((forwarded, n), { d with scratch := d.scratch ++ [addr] })

/-! Concrete example objects used by the witnesses. -/

/-- An always-succeeding byte supplier handing back NOP bytes. -/
def exampleSupplier : RustLoadImage :=
  ⟨fun _ sz _ => .ok (List.replicate sz 0x90), fun _ => ()⟩

/-- Builds a ready engine handle around exampleSupplier with the given
decode behaviours, default code space 1 and a one-tag configuration. -/
def mkEngine
    (dp : ContextDB → RustLoadImageProxy → Address →
      List EngineEmission × Except Fault Int)
    (da : ContextDB → RustLoadImageProxy → Address →
      List AsmEmission × Except Fault Int) : Decompiler :=
  { loadImage := ⟨exampleSupplier⟩
    specDoc := ⟨[⟨"sleigh", ""⟩]⟩
    context := newContext
    tables := ⟨⟨"sleigh", ""⟩⟩
    defaultCodeSpace := 1
    scratch := []
    decodePcode := dp
    decodeAsm := da }

/-- An engine whose decode faults immediately on every request. -/
def faultyEngine : Decompiler :=
  mkEngine (fun _ _ _ => ([], .error .badEncoding))
    (fun _ _ _ => ([], .error .badEncoding))

/-- An engine whose decode succeeds with one pcode emission, respectively
one textual emission, of length 1 at every address. -/
def okEngine : Decompiler :=
  mkEngine (fun _ _ ad => ([⟨ad, ⟨1⟩, none, [], 0⟩], .ok 1))
    (fun _ _ ad => ([⟨ad, "nop", ""⟩], .ok 1))

/-- An engine whose decode forwards one emission to the sink and then
faults. -/
def faultAfterEmitEngine : Decompiler :=
  mkEngine (fun _ _ ad => ([⟨ad, ⟨3⟩, none, [], 0⟩], .error .badEncoding))
    (fun _ _ ad => ([⟨ad, "mov", "eax, 1"⟩], .error .unsupportedConstruct))

/-! Claim theorems. -/

/-- C1: any fault raised by the decode operation inside translate or
disassemble is caught at the boundary and converted to a return value of
0; the call still returns an ordinary value (the codomain of both bridge
operations has no exception channel), so no fault reaches the caller. -/
theorem translate_disassemble_fault_to_zero (d : Decompiler) (a : Nat)
    (f g : Fault) (pe : List EngineEmission) (ae : List AsmEmission)
    (hp : d.decodePcode d.context d.loadImage ⟨d.defaultCodeSpace, a⟩ =
      (pe, .error f))
    (ha : d.decodeAsm d.context d.loadImage ⟨d.defaultCodeSpace, a⟩ =
      (ae, .error g)) :
    (d.translate a).1.2 = 0 ∧ (d.disassemble a).1.2 = 0 := by
  unfold Decompiler.translate Decompiler.disassemble
  simp [hp, ha]

/-- Witness for C1: a byte-supplier-independent engine whose decode faults
on every request makes both calls return 0 without any fault escaping. -/
theorem translate_disassemble_fault_to_zero_witness :
    (faultyEngine.translate 0).1.2 = 0 ∧ (faultyEngine.disassemble 0).1.2 = 0 :=
  translate_disassemble_fault_to_zero faultyEngine 0 .badEncoding .badEncoding
    [] [] rfl rfl

/-- C2: translate decodes one instruction at the address built from the
handle's default code space and the 64-bit offset and, on success,
returns that instruction's byte length, forwarding the engine's pcode
emissions through the proxy; disassemble constructs the address the same
way, returns the same length, and forwards the engine's single textual
emission to the sink verbatim. -/
theorem translate_disassemble_success_contract (d : Decompiler) (a : Nat)
    (n m : Int) (pe : List EngineEmission) (e : AsmEmission)
    (hp : d.decodePcode d.context d.loadImage ⟨d.defaultCodeSpace, a⟩ =
      (pe, .ok n))
    (ha : d.decodeAsm d.context d.loadImage ⟨d.defaultCodeSpace, a⟩ =
      ([e], .ok m)) :
    (d.translate a).1 =
      (pe.map (fun x => ⟨x.addr, opcodeToUInt32 x.opc, x.outvar, x.vars, x.isize⟩), n)
    ∧ (d.disassemble a).1 = ([e], m) := by
  obtain ⟨ea, em, eb⟩ := e
  unfold Decompiler.translate Decompiler.disassemble
  simp [hp, ha, recordProxy, recordSink, asmRecordProxy, asmRecordSink,
    RustPCodeEmitProxy.dump, RustAssemblyEmitProxy.dump]

/-- Witness for C2: on the always-succeeding engine, translate at offset 7
returns length 1 and delivers the one converted pcode record at address
(space 1, offset 7); disassemble delivers the one textual emission. -/
theorem translate_disassemble_success_contract_witness :
    (okEngine.translate 7).1 = ([⟨⟨1, 7⟩, 1, none, [], 0⟩], 1)
    ∧ (okEngine.disassemble 7).1 = ([⟨⟨1, 7⟩, "nop", ""⟩], 1) := by
  have h := translate_disassemble_success_contract okEngine 7 1 1
    [⟨⟨1, 7⟩, ⟨1⟩, none, [], 0⟩] ⟨⟨1, 7⟩, "nop", ""⟩ rfl rfl
  simpa [opcodeToUInt32] using h

/-- C3: engine-handle construction on a configuration document missing the
required tag content fails with an explicit error and never returns a
handle; conversely, any handle that is returned carries tables built from
a tag actually registered in the configuration, so no partially
initialized handle is produced. -/
theorem newDecompiler_malformed_config_no_handle
    (dp : ContextDB → RustLoadImageProxy → Address →
      List EngineEmission × Except Fault Int)
    (da : ContextDB → RustLoadImageProxy → Address →
      List AsmEmission × Except Fault Int)
    (sp : Nat) (li : RustLoadImage) (st : DocumentStorage) :
    (st.tags = [] → newDecompiler dp da sp li st = .error .malformedConfig)
    ∧ (∀ d, newDecompiler dp da sp li st = Except.ok d →
        st.tags ≠ [] ∧ d.tables.root ∈ st.tags) := by
  constructor
  · intro h
    unfold newDecompiler initializeFromSpec
    simp [h]
  · intro d hd
    unfold newDecompiler initializeFromSpec at hd
    rcases hts : st.tags with _ | ⟨r, rest⟩
    · rw [hts] at hd
      simp at hd
    · rw [hts] at hd
      simp at hd
      refine ⟨by simp, ?_⟩
      rw [← hd]
      simp

/-- Witness for C3: construction over an empty-tag configuration returns
the explicit error, and the successfully constructed example engine's
shape is consistent with the registered-tag clause. -/
theorem newDecompiler_malformed_config_no_handle_witness :
    newDecompiler (fun _ _ _ => ([], Except.error Fault.badEncoding))
      (fun _ _ _ => ([], Except.error Fault.badEncoding)) 1 exampleSupplier
      ⟨[]⟩ = .error .malformedConfig :=
  (newDecompiler_malformed_config_no_handle _ _ 1 exampleSupplier ⟨[]⟩).1 rfl

/-- C5: newDocumentStorage propagates any parse failure of the external
parser to the caller unchanged, and on success returns a storage whose
tag registry holds exactly the parsed document's root element, registered
before the storage is returned. -/
theorem newDocumentStorage_parse_error_propagation
    (parseDocument : String → Except ParseError Element) (s : String) :
    (∀ e, parseDocument s = .error e →
      newDocumentStorage parseDocument s = .error e)
    ∧ (∀ root, parseDocument s = .ok root →
      newDocumentStorage parseDocument s = .ok ⟨[root]⟩) := by
  constructor
  · intro e h
    unfold newDocumentStorage
    simp [h]
  · intro root h
    unfold newDocumentStorage
    simp [h, DocumentStorage.registerTag]

/-- A parser that rejects every input. -/
def rejectingParse : String → Except ParseError Element :=
  fun _ => .error .malformedDocument

/-- A parser that accepts every input, producing a root element holding
the text. -/
def acceptingParse : String → Except ParseError Element :=
  fun s => .ok ⟨"sleigh", s⟩

/-- Witness for C5: the failure of a rejecting parser surfaces to the
caller, and an accepting parser yields a storage with its root
registered. -/
theorem newDocumentStorage_parse_error_propagation_witness :
    newDocumentStorage rejectingParse "x" = .error .malformedDocument
    ∧ newDocumentStorage acceptingParse "x" = .ok ⟨[⟨"sleigh", "x"⟩]⟩ :=
  ⟨(newDocumentStorage_parse_error_propagation rejectingParse "x").1
      ParseError.malformedDocument rfl,
    (newDocumentStorage_parse_error_propagation acceptingParse "x").2
      ⟨"sleigh", "x"⟩ rfl⟩

/-- C6: the pcode-emit proxy's dump hands the host sink the address, the
output descriptor (null passed through unchanged, so the sink sees none
exactly when the engine emitted no destination), the input descriptors
and the input count verbatim, converting only the opcode enumeration
value to its numeric tag; the proxy is a stateless forwarder holding
nothing but its sink reference, so it retains no data after the call. -/
theorem pcode_proxy_dump_forwards {α : Type} (inner : RustPCodeEmit α)
    (addr : Address) (opc : OpCode) (outvar : Option VarnodeData)
    (vars : List VarnodeData) (isize : Int) :
    (RustPCodeEmitProxy.mk inner).dump addr opc outvar vars isize =
      inner.dump addr (opcodeToUInt32 opc) outvar vars isize
    ∧ recordProxy.dump addr opc outvar vars isize =
      ⟨addr, opcodeToUInt32 opc, outvar, vars, isize⟩
    ∧ ((recordProxy.dump addr opc outvar vars isize).outvar.isNone ↔
      outvar.isNone) :=
  ⟨rfl, rfl, Iff.rfl⟩

/-- C7: getVarnodeSize returns exactly the descriptor's size field and
getVarnodeDataAddress returns an address carrying exactly the space and
offset encoded in the descriptor (round-trip identity); both accessors
are pure functions of the descriptor, so repeated calls agree and the
descriptor is unchanged. -/
theorem varnode_accessors_roundtrip (d : VarnodeData) :
    getVarnodeSize d = d.size
    ∧ getVarnodeDataAddress d = ⟨d.space, d.offset⟩
    ∧ (getVarnodeDataAddress d).space = d.space
    ∧ (getVarnodeDataAddress d).offset = d.offset
    ∧ getVarnodeSize d = getVarnodeSize d
    ∧ getVarnodeDataAddress d = getVarnodeDataAddress d :=
  ⟨rfl, rfl, rfl, rfl, rfl, rfl⟩

/-- C8: the load-image proxy forwards every fill request (buffer, byte
count, address) verbatim to the host supplier and forwards adjustVma's
delta with unit return and no failure path in its codomain, while
getArchType returns the same fixed string "plain" on every proxy
regardless of state. -/
theorem load_image_proxy_forwards (p q : RustLoadImageProxy)
    (ptr size : Nat) (address : Address) (delta : Int) :
    p.loadFill ptr size address = p.inner.load_fill ptr size address
    ∧ p.adjustVma delta = p.inner.adjust_vma delta
    ∧ p.getArchType = "plain"
    ∧ p.getArchType = q.getArchType :=
  ⟨rfl, rfl, rfl, rfl⟩

/-- C9: on one handle, a translate call leaves the context database (and
everything except the residual scratch state) untouched, and the result
of a translate call is a function of the handle's context database, byte
supplier, default code space and decode algorithm only; hence the second
of two consecutive calls at different addresses returns exactly what it
would have returned without the first call. -/
theorem translate_call_independence (d d' : Decompiler) (a1 a2 : Nat)
    (hc : d'.context = d.context) (hl : d'.loadImage = d.loadImage)
    (hs : d'.defaultCodeSpace = d.defaultCodeSpace)
    (hd : d'.decodePcode = d.decodePcode) :
    (((d.translate a1).2).translate a2).1 = (d.translate a2).1
    ∧ ((d.translate a1).2).context = d.context
    ∧ (d'.translate a2).1 = (d.translate a2).1 := by
  refine ⟨rfl, rfl, ?_⟩
  unfold Decompiler.translate
  rw [hc, hl, hs, hd]

/-- An engine like okEngine but with different residual scratch state and
a different configuration document, agreeing with it on context, byte
supplier, default code space and decode algorithm. -/
def okEngineDirty : Decompiler :=
  { okEngine with scratch := [5], specDoc := ⟨[]⟩ }

/-- Witness for C9: on the example engine, running translate at offset 0
first does not change what translate at offset 1 returns, and the
scratch-and-configuration variant returns the same result. -/
theorem translate_call_independence_witness :
    (((okEngine.translate 0).2).translate 1).1 = (okEngine.translate 1).1
    ∧ ((okEngine.translate 0).2).context = okEngine.context
    ∧ (okEngineDirty.translate 1).1 = (okEngine.translate 1).1 :=
  translate_call_independence okEngine okEngineDirty 0 1 rfl rfl rfl rfl

/-- C10: when a decode fault is converted to a 0 return, the emissions the
engine had already pushed through the proxy before faulting have reached
the host sink and are not retracted, so a 0 return does not imply the
sink received nothing. -/
theorem translate_zero_return_keeps_emissions (d : Decompiler) (a : Nat)
    (f g : Fault) (pe : List EngineEmission) (ae : List AsmEmission)
    (hp : d.decodePcode d.context d.loadImage ⟨d.defaultCodeSpace, a⟩ =
      (pe, .error f))
    (ha : d.decodeAsm d.context d.loadImage ⟨d.defaultCodeSpace, a⟩ =
      (ae, .error g)) :
    (d.translate a).1 =
      (pe.map (fun x => ⟨x.addr, opcodeToUInt32 x.opc, x.outvar, x.vars, x.isize⟩), 0)
    ∧ (d.disassemble a).1 = (ae, 0) := by
  unfold Decompiler.translate Decompiler.disassemble
  constructor
  · simp [hp, recordProxy, recordSink, RustPCodeEmitProxy.dump]
  · simp [ha, asmRecordProxy, asmRecordSink, RustAssemblyEmitProxy.dump]

/-- Witness for C10: an engine that emits one record and then faults makes
translate return 0 with a non-empty sink stream, and disassemble return 0
with one textual emission delivered. -/
theorem translate_zero_return_keeps_emissions_witness :
    (faultAfterEmitEngine.translate 2).1 = ([⟨⟨1, 2⟩, 3, none, [], 0⟩], 0)
    ∧ (faultAfterEmitEngine.disassemble 2).1 =
      ([⟨⟨1, 2⟩, "mov", "eax, 1"⟩], 0) := by
  have h := translate_zero_return_keeps_emissions faultAfterEmitEngine 2
    .badEncoding .unsupportedConstruct [⟨⟨1, 2⟩, ⟨3⟩, none, [], 0⟩]
    [⟨⟨1, 2⟩, "mov", "eax, 1"⟩] rfl rfl
  simpa [opcodeToUInt32] using h

end SleighSys
